import Mathlib

/-!
Shallow embedding of the `jc` constant-memory JSON tokenizer (C89, one
header).  The C source buffer is modelled as the `List Char` of characters
strictly before the terminating null; reading the buffer at an index is
`jcChar`, which yields the null character at or beyond the end of the list
(the terminator, and an idealised zero memory beyond it).  Machine
`size_t` values are `Nat`, the `int` nesting level is `Int`, the
`jc_token_type` bitmasks are `Nat` with the C hexadecimal values, and the
fixed nesting-stack array is a total function `Int → jc_nesting_type`
(every C access to it is bounds-guarded).  A C out-parameter that may be
NULL is a `Bool` flag (`want`) or an `Option`.  `jc_parse_number`'s scan
loop can run past the terminating null (see `jcStrchr`); an execution that
does so reads unallocated memory, so the step function returns `none` for
it (undefined behaviour marker) and a defined result otherwise.
-/

/-- The null character, `JC_CHAR_NULL` in the C source. -/
def JC_CHAR_NULL : Char := Char.ofNat 0

/-- `JC_CHAR_OBJECT_START`, the character `{`. -/
def JC_CHAR_OBJECT_START : Char := Char.ofNat 123

/-- `JC_CHAR_OBJECT_END`, the character `}`. -/
def JC_CHAR_OBJECT_END : Char := Char.ofNat 125

/-- `JC_CHAR_ARRAY_START`, the character `[`. -/
def JC_CHAR_ARRAY_START : Char := Char.ofNat 91

/-- `JC_CHAR_ARRAY_END`, the character `]`. -/
def JC_CHAR_ARRAY_END : Char := Char.ofNat 93

/-- `JC_CHAR_COMMA`. -/
def JC_CHAR_COMMA : Char := Char.ofNat 44

/-- `JC_CHAR_COLON`. -/
def JC_CHAR_COLON : Char := Char.ofNat 58

/-- `JC_CHAR_DQUOTE`, the double-quote character. -/
def JC_CHAR_DQUOTE : Char := Char.ofNat 34

/-- `JC_CHAR_BACKSLASH`. -/
def JC_CHAR_BACKSLASH : Char := Char.ofNat 92

/-- Token type bit `JC_TOKEN_TYPE_NUMBER`. -/
def JC_TOKEN_TYPE_NUMBER : Nat := 0x001

/-- Token type bit `JC_TOKEN_TYPE_STRING`. -/
def JC_TOKEN_TYPE_STRING : Nat := 0x002

/-- Token type bit `JC_TOKEN_TYPE_TRUE`. -/
def JC_TOKEN_TYPE_TRUE : Nat := 0x004

/-- Token type bit `JC_TOKEN_TYPE_FALSE`. -/
def JC_TOKEN_TYPE_FALSE : Nat := 0x008

/-- Token type bit `JC_TOKEN_TYPE_NULL`. -/
def JC_TOKEN_TYPE_NULL : Nat := 0x010

/-- Token type bit `JC_TOKEN_TYPE_ARRAY_START`. -/
def JC_TOKEN_TYPE_ARRAY_START : Nat := 0x020

/-- Token type bit `JC_TOKEN_TYPE_ARRAY_END`. -/
def JC_TOKEN_TYPE_ARRAY_END : Nat := 0x040

/-- Token type bit `JC_TOKEN_TYPE_OBJECT_START`. -/
def JC_TOKEN_TYPE_OBJECT_START : Nat := 0x080

/-- Token type bit `JC_TOKEN_TYPE_OBJECT_END`. -/
def JC_TOKEN_TYPE_OBJECT_END : Nat := 0x100

/-- Token type bit `JC_TOKEN_TYPE_FIELD_NAME`. -/
def JC_TOKEN_TYPE_FIELD_NAME : Nat := 0x200

/-- Token type bit `JC_TOKEN_TYPE_COMMA`. -/
def JC_TOKEN_TYPE_COMMA : Nat := 0x400

/-- Token type bit `JC_TOKEN_TYPE_COLON`. -/
def JC_TOKEN_TYPE_COLON : Nat := 0x800

/-- `JC_NO_TOKENS_EXPECTED`: the empty expected-token bitmask. -/
def JC_NO_TOKENS_EXPECTED : Nat := 0

/-- `JC_NO_NESTING_LEVEL`: the nesting level of an empty stack. -/
def JC_NO_NESTING_LEVEL : Int := -1

/-- `JC_MAX_NESTING_LEVEL`, the configured maximum nesting depth (default 8). -/
def JC_MAX_NESTING_LEVEL : Int := 8

/-- `JC_TOKEN_TYPE_VALUE`: the bitmask union of all token types that can
start a JSON value. -/
def JC_TOKEN_TYPE_VALUE : Nat :=
  JC_TOKEN_TYPE_NUMBER |||
  JC_TOKEN_TYPE_STRING |||
  JC_TOKEN_TYPE_TRUE |||
  JC_TOKEN_TYPE_FALSE |||
  JC_TOKEN_TYPE_NULL |||
  JC_TOKEN_TYPE_ARRAY_START |||
  JC_TOKEN_TYPE_OBJECT_START

/-- The characters of `JC_LIT_TRUE`. -/
def JC_LIT_TRUE : List Char := "true".data

/-- The characters of `JC_LIT_FALSE`. -/
def JC_LIT_FALSE : List Char := "false".data

/-- The characters of `JC_LIT_NULL`. -/
def JC_LIT_NULL : List Char := "null".data

/-- The characters of `JC_VALID_CHARS_IN_NUMBER`, the fixed number charset. -/
def JC_VALID_CHARS_IN_NUMBER : List Char := "0123456789-+eE.".data

/-- `enum jc_result`: all possible result and error codes. -/
inductive jc_result : Type where
  | JC_RESULT_OK : jc_result
  | JC_RESULT_EOF : jc_result
  | JC_RESULT_ERR_CANT_INIT : jc_result
  | JC_RESULT_ERR_UNEXPECTED_TOKEN : jc_result
  | JC_RESULT_ERR_UNEXPECTED_EOF : jc_result
  | JC_RESULT_ERR_GARBAGE : jc_result
  | JC_RESULT_ERR_MAX_NESTING_REACHED : jc_result
  | JC_RESULT_ERR_CORRUPTED_STATE : jc_result
deriving DecidableEq, Repr

export jc_result (JC_RESULT_OK JC_RESULT_EOF JC_RESULT_ERR_CANT_INIT
  JC_RESULT_ERR_UNEXPECTED_TOKEN JC_RESULT_ERR_UNEXPECTED_EOF
  JC_RESULT_ERR_GARBAGE JC_RESULT_ERR_MAX_NESTING_REACHED
  JC_RESULT_ERR_CORRUPTED_STATE)

/-- `enum jc_nesting_type`: the kind of an open nesting frame. -/
inductive jc_nesting_type : Type where
  | JC_NESTING_TYPE_OBJECT : jc_nesting_type
  | JC_NESTING_TYPE_ARRAY : jc_nesting_type
deriving DecidableEq, Repr

export jc_nesting_type (JC_NESTING_TYPE_OBJECT JC_NESTING_TYPE_ARRAY)

/-- `struct jc_token`: a token type bit plus its half-open boundaries in the
source string. -/
structure jc_token : Type where
  type : Nat
  start : Nat
  stop : Nat
deriving DecidableEq, Repr

/-- `struct jc_state_s`: the tokenizer state.  `nesting_stack` models the
fixed `jc_nesting_type[JC_MAX_NESTING_LEVEL]` array as a total function
(every access the C code performs on it is bounds-guarded). -/
structure jc_state : Type where
  source : List Char
  source_pos : Nat
  nesting_stack : Int → jc_nesting_type
  nesting_level : Int
  expected_token_types : Nat

/-- Reading the source buffer at an index: the characters of the list, then
the terminating null (and idealised zeroed memory beyond it). -/
def jcChar (src : List Char) (i : Nat) : Char :=
  src.getD i JC_CHAR_NULL

/-- C89 `isspace` in the C locale: space, tab, newline, vertical tab, form
feed, carriage return. -/
def jc_isspace (c : Char) : Bool :=
  c == Char.ofNat 32 || c == Char.ofNat 9 || c == Char.ofNat 10 ||
  c == Char.ofNat 11 || c == Char.ofNat 12 || c == Char.ofNat 13

/-- C89 `strchr(s, c) != NULL` for a charset string `s` with characters
`cs`: true when `c` occurs among the characters, and ALSO when `c` is the
null character, because the C standard makes the terminating null part of
the searched string.  That second disjunct is the exact semantics of
`strchr` and is what makes `jc_parse_number`'s loop run past the
terminating null of the source. -/
def jcStrchr (cs : List Char) (c : Char) : Bool :=
  cs.contains c || c == JC_CHAR_NULL

/-- `jc_init`: `Option` on each argument models the C pointers being NULL.
Returns the result code and the (possibly re-initialized) state object;
note the nesting stack array is not touched by initialization. -/
def jc_init (state : Option jc_state) (source : Option (List Char)) :
    jc_result × Option jc_state :=
  match state, source with
  | some st, some src =>
      (JC_RESULT_OK, some { st with
        source := src
        source_pos := 0
        nesting_level := JC_NO_NESTING_LEVEL
        expected_token_types := JC_TOKEN_TYPE_VALUE })
  | _, _ => (JC_RESULT_ERR_CANT_INIT, state)

/-- A state as produced by a successful `jc_init` on `src`, with whatever
contents `stack0` the uninitialized nesting-stack array happens to hold. -/
def jc_initial_state (src : List Char) (stack0 : Int → jc_nesting_type) :
    jc_state :=
  { source := src
    source_pos := 0
    nesting_stack := stack0
    nesting_level := JC_NO_NESTING_LEVEL
    expected_token_types := JC_TOKEN_TYPE_VALUE }

/-- An arbitrary concrete content for the uninitialized nesting stack. -/
def jcAnyStack : Int → jc_nesting_type := fun _ => JC_NESTING_TYPE_ARRAY

/-- `jc_make_token`: populates the token out-slot when the token pointer is
non-null (`want = true`). -/
def jc_make_token (st : jc_state) (want : Bool) (type : Nat) (len : Nat) :
    Option jc_token :=
  if want then
    some { type := type, start := st.source_pos, stop := st.source_pos + len }
  else
    none

/-- `jc_advance_source_pos`. -/
def jc_advance_source_pos (st : jc_state) (num_of_chars : Nat) : jc_state :=
  { st with source_pos := st.source_pos + num_of_chars }

/-- `jc_expect_next`. -/
def jc_expect_next (st : jc_state) (expected_token_types : Nat) : jc_state :=
  { st with expected_token_types := expected_token_types }

/-- `jc_is_expected`: for the zero mask, tests that no tokens are expected;
otherwise tests that the bitmask intersection is nonzero. -/
def jc_is_expected (st : jc_state) (type : Nat) : Bool :=
  if type == JC_NO_TOKENS_EXPECTED then
    st.expected_token_types == JC_NO_TOKENS_EXPECTED
  else
    (st.expected_token_types &&& type) != 0

/-- The `jc_skip_whitespace` loop, structurally recursive on a fuel bound.
One unit of fuel per loop iteration; `jc_skip_whitespace` supplies fuel
that provably suffices (the loop stops no later than the terminating
null, since `isspace` rejects the null character). -/
def jcSkipWsGo (src : List Char) (pos : Nat) : Nat → Nat
  | 0 => pos
  | fuel + 1 =>
      if jc_isspace (jcChar src pos) then jcSkipWsGo src (pos + 1) fuel
      else pos

/-- The final scan position of `jc_skip_whitespace` starting at `pos`. -/
def jcSkipWsPos (src : List Char) (pos : Nat) : Nat :=
  jcSkipWsGo src pos (src.length + 1 - pos)

/-- `jc_skip_whitespace`. -/
def jc_skip_whitespace (st : jc_state) : jc_state :=
  { st with source_pos := jcSkipWsPos st.source st.source_pos }

/-- `jc_nest`: pushes a nesting frame, or reports `MAX_NESTING_REACHED`
without touching the state when the stack is full. -/
def jc_nest (st : jc_state) (type : jc_nesting_type) : jc_result × jc_state :=
  if st.nesting_level ≥ JC_MAX_NESTING_LEVEL - 1 then
    (JC_RESULT_ERR_MAX_NESTING_REACHED, st)
  else
    (JC_RESULT_OK, { st with
      nesting_level := st.nesting_level + 1
      nesting_stack := fun i =>
        if i = st.nesting_level + 1 then type else st.nesting_stack i })

/-- `jc_unnest`: pops a nesting frame, or reports `CORRUPTED_STATE` without
touching the state when the stack is already empty. -/
def jc_unnest (st : jc_state) : jc_result × jc_state :=
  if st.nesting_level ≤ JC_NO_NESTING_LEVEL then
    (JC_RESULT_ERR_CORRUPTED_STATE, st)
  else
    (JC_RESULT_OK, { st with nesting_level := st.nesting_level - 1 })

/-- `jc_get_end_token_type_of_current_nesting`: comma-or-end bitmask of the
innermost open frame, or the empty mask when no frame is open (or the
level is out of range). -/
def jc_get_end_token_type_of_current_nesting (st : jc_state) : Nat :=
  if JC_NO_NESTING_LEVEL < st.nesting_level ∧
      st.nesting_level < JC_MAX_NESTING_LEVEL then
    if st.nesting_stack st.nesting_level = JC_NESTING_TYPE_OBJECT then
      JC_TOKEN_TYPE_COMMA ||| JC_TOKEN_TYPE_OBJECT_END
    else
      JC_TOKEN_TYPE_COMMA ||| JC_TOKEN_TYPE_ARRAY_END
  else
    JC_NO_TOKENS_EXPECTED

/-- `jc_get_token_type_after_comma_of_current_nesting`: what a comma makes
expected, depending on the innermost open frame. -/
def jc_get_token_type_after_comma_of_current_nesting (st : jc_state) : Nat :=
  if JC_NO_NESTING_LEVEL < st.nesting_level ∧
      st.nesting_level < JC_MAX_NESTING_LEVEL then
    if st.nesting_stack st.nesting_level = JC_NESTING_TYPE_OBJECT then
      JC_TOKEN_TYPE_FIELD_NAME
    else
      JC_TOKEN_TYPE_VALUE
  else
    JC_NO_TOKENS_EXPECTED

/-- The `jc_search_dquote` loop, structurally recursive on a fuel bound:
stop at a double quote (found), stop at a null (not found), skip a
backslash together with its following character when that character is
not the null, else advance one.  Exhausted fuel only ever happens at or
beyond the terminating null, where the answer is `none` anyway. -/
def jcSearchDquoteGo (src : List Char) (i : Nat) : Nat → Option Nat
  | 0 => none
  | fuel + 1 =>
      if jcChar src i == JC_CHAR_DQUOTE then some i
      else if jcChar src i == JC_CHAR_NULL then none
      else if jcChar src i == JC_CHAR_BACKSLASH &&
          (jcChar src (i + 1) != JC_CHAR_NULL) then
        jcSearchDquoteGo src (i + 2) fuel
      else
        jcSearchDquoteGo src (i + 1) fuel

/-- `jc_search_dquote`, by position: the index of the next unescaped double
quote at or after `i`, or `none` when the terminating null comes first. -/
def jc_search_dquote (src : List Char) (i : Nat) : Option Nat :=
  jcSearchDquoteGo src i (src.length + 1 - i)

/-- `jc_parse_string_or_field_name`.  Returns result code, successor state
and the token out-slot contents. -/
def jc_parse_string_or_field_name (st : jc_state) (want : Bool) :
    jc_result × jc_state × Option jc_token :=
  match jc_search_dquote st.source (st.source_pos + 1) with
  | none => (JC_RESULT_ERR_UNEXPECTED_EOF, st, none)
  | some q =>
      let token_len := q - st.source_pos - 1
      let token_type :=
        if jc_is_expected st JC_TOKEN_TYPE_FIELD_NAME then
          JC_TOKEN_TYPE_FIELD_NAME
        else
          JC_TOKEN_TYPE_STRING
      let st1 := jc_advance_source_pos st 1
      let tok := jc_make_token st1 want token_type token_len
      let st2 := jc_advance_source_pos st1 (token_len + 1)
      let st3 :=
        if token_type = JC_TOKEN_TYPE_FIELD_NAME then
          jc_expect_next st2 JC_TOKEN_TYPE_COLON
        else
          jc_expect_next st2 (jc_get_end_token_type_of_current_nesting st2)
      (JC_RESULT_OK, st3, tok)

/-- The length scanned by the `jc_parse_number` loop: the least `k` whose
character fails the `strchr` test, searched among the in-buffer positions
only.  `none` means every position up to and including the terminating
null passes the test (the null always does, see `jcStrchr`), i.e. the C
loop runs past the end of the buffer: undefined behaviour. -/
def jcNumberRunLen (src : List Char) (pos : Nat) : Option Nat :=
  (List.range (src.length - pos)).find?
    (fun k => !jcStrchr JC_VALID_CHARS_IN_NUMBER (jcChar src (pos + k)))

/-- `jc_parse_number`.  `none` is the undefined-behaviour marker: the scan
loop ran past the terminating null. -/
def jc_parse_number (st : jc_state) (want : Bool) :
    Option (jc_result × jc_state × Option jc_token) :=
  match jcNumberRunLen st.source st.source_pos with
  | none => none
  | some token_len =>
      let tok := jc_make_token st want JC_TOKEN_TYPE_NUMBER token_len
      let st1 := jc_advance_source_pos st token_len
      let st2 :=
        jc_expect_next st1 (jc_get_end_token_type_of_current_nesting st1)
      some (JC_RESULT_OK, st2, tok)

/-- `strncmp(src + pos, lit, lit.length) == 0` for a literal `lit` whose
characters are not null: all `lit.length` characters match in place. -/
def jcMatchLiteral (src : List Char) (pos : Nat) (lit : List Char) : Bool :=
  (List.range lit.length).all
    (fun j => jcChar src (pos + j) == lit.getD j JC_CHAR_NULL)

/-- `jc_parse_literal`. -/
def jc_parse_literal (st : jc_state) (want : Bool) (token_type : Nat)
    (literal : List Char) : jc_result × jc_state × Option jc_token :=
  if !jcMatchLiteral st.source st.source_pos literal then
    (JC_RESULT_ERR_UNEXPECTED_TOKEN, st, none)
  else
    let tok := jc_make_token st want token_type literal.length
    let st1 := jc_advance_source_pos st literal.length
    let st2 :=
      jc_expect_next st1 (jc_get_end_token_type_of_current_nesting st1)
    (JC_RESULT_OK, st2, tok)

/-- `jc_next_token` on a non-null state.  `want` models the token
out-pointer being non-null; the `Option jc_token` in the result is what
the call stored into the out-slot (`none` when it did not store).  The
outer `Option` is the undefined-behaviour marker inherited from
`jc_parse_number`. -/
def jc_next_token (st0 : jc_state) (want : Bool) :
    Option (jc_result × jc_state × Option jc_token) :=
  let st := jc_skip_whitespace st0
  let current_char := jcChar st.source st.source_pos
  if jc_is_expected st JC_NO_TOKENS_EXPECTED then
    some (if current_char == JC_CHAR_NULL then JC_RESULT_EOF
          else JC_RESULT_ERR_GARBAGE, st, none)
  else if current_char == JC_CHAR_NULL then
    some (JC_RESULT_ERR_UNEXPECTED_EOF, st, none)
  else if jc_is_expected st JC_TOKEN_TYPE_OBJECT_START &&
      (current_char == JC_CHAR_OBJECT_START) then
    let tok := jc_make_token st want JC_TOKEN_TYPE_OBJECT_START 1
    let st1 := jc_expect_next (jc_advance_source_pos st 1)
      (JC_TOKEN_TYPE_FIELD_NAME ||| JC_TOKEN_TYPE_OBJECT_END)
    let p := jc_nest st1 JC_NESTING_TYPE_OBJECT
    some (p.1, p.2, tok)
  else if jc_is_expected st JC_TOKEN_TYPE_ARRAY_START &&
      (current_char == JC_CHAR_ARRAY_START) then
    let tok := jc_make_token st want JC_TOKEN_TYPE_ARRAY_START 1
    let st1 := jc_expect_next (jc_advance_source_pos st 1)
      (JC_TOKEN_TYPE_VALUE ||| JC_TOKEN_TYPE_ARRAY_END)
    let p := jc_nest st1 JC_NESTING_TYPE_ARRAY
    some (p.1, p.2, tok)
  else if jc_is_expected st JC_TOKEN_TYPE_OBJECT_END &&
      (current_char == JC_CHAR_OBJECT_END) then
    let tok := jc_make_token st want JC_TOKEN_TYPE_OBJECT_END 1
    let p := jc_unnest (jc_advance_source_pos st 1)
    if p.1 ≠ JC_RESULT_OK then
      some (JC_RESULT_ERR_CORRUPTED_STATE, p.2, tok)
    else
      some (JC_RESULT_OK,
        jc_expect_next p.2 (jc_get_end_token_type_of_current_nesting p.2), tok)
  else if jc_is_expected st JC_TOKEN_TYPE_ARRAY_END &&
      (current_char == JC_CHAR_ARRAY_END) then
    let tok := jc_make_token st want JC_TOKEN_TYPE_ARRAY_END 1
    let p := jc_unnest (jc_advance_source_pos st 1)
    if p.1 ≠ JC_RESULT_OK then
      some (JC_RESULT_ERR_CORRUPTED_STATE, p.2, tok)
    else
      some (JC_RESULT_OK,
        jc_expect_next p.2 (jc_get_end_token_type_of_current_nesting p.2), tok)
  else if jc_is_expected st JC_TOKEN_TYPE_COLON &&
      (current_char == JC_CHAR_COLON) then
    let tok := jc_make_token st want JC_TOKEN_TYPE_COLON 1
    some (JC_RESULT_OK,
      jc_expect_next (jc_advance_source_pos st 1) JC_TOKEN_TYPE_VALUE, tok)
  else if jc_is_expected st JC_TOKEN_TYPE_COMMA &&
      (current_char == JC_CHAR_COMMA) then
    let tok := jc_make_token st want JC_TOKEN_TYPE_COMMA 1
    let st1 := jc_advance_source_pos st 1
    some (JC_RESULT_OK,
      jc_expect_next st1
        (jc_get_token_type_after_comma_of_current_nesting st1), tok)
  else if jc_is_expected st
      (JC_TOKEN_TYPE_FIELD_NAME ||| JC_TOKEN_TYPE_STRING) &&
      (current_char == JC_CHAR_DQUOTE) then
    some (jc_parse_string_or_field_name st want)
  else if jc_is_expected st JC_TOKEN_TYPE_NUMBER &&
      jcStrchr JC_VALID_CHARS_IN_NUMBER current_char then
    jc_parse_number st want
  else if jc_is_expected st JC_TOKEN_TYPE_TRUE &&
      jcStrchr JC_LIT_TRUE current_char then
    some (jc_parse_literal st want JC_TOKEN_TYPE_TRUE JC_LIT_TRUE)
  else if jc_is_expected st JC_TOKEN_TYPE_FALSE &&
      jcStrchr JC_LIT_FALSE current_char then
    some (jc_parse_literal st want JC_TOKEN_TYPE_FALSE JC_LIT_FALSE)
  else if jc_is_expected st JC_TOKEN_TYPE_NULL &&
      jcStrchr JC_LIT_NULL current_char then
    some (jc_parse_literal st want JC_TOKEN_TYPE_NULL JC_LIT_NULL)
  else
    some (JC_RESULT_ERR_UNEXPECTED_TOKEN, st, none)

/-- `jc_next_token` at the pointer level: `none` for the state argument
models a NULL state pointer, which is rejected with `CORRUPTED_STATE`
before anything else happens. -/
def jc_next_token_ptr (state : Option jc_state) (want : Bool) :
    Option (jc_result × Option jc_state × Option jc_token) :=
  match state with
  | none => some (JC_RESULT_ERR_CORRUPTED_STATE, none, none)
  | some st =>
      (jc_next_token st want).map (fun x => (x.1, some x.2.1, x.2.2))

/-- `n` successive `jc_next_token` calls (continuing past error results,
as a driver may), collecting each call's result code and token-slot
contents; `none` when some call hits undefined behaviour. -/
def jcSteps (st : jc_state) (want : Bool) :
    Nat → Option (jc_state × List (jc_result × Option jc_token))
  | 0 => some (st, [])
  | n + 1 =>
      match jc_next_token st want with
      | none => none
      | some (r, st2, t) =>
          match jcSteps st2 want n with
          | none => none
          | some (st3, l) => some (st3, (r, t) :: l)

/-- The facts about one emitted token and successor state that the bounds
invariant needs, phrased for a triple-producing parse helper. -/
def jcTripleProps (s : jc_state) (x : jc_result × jc_state × Option jc_token) :
    Prop :=
  x.2.1.source = s.source ∧ s.source_pos ≤ x.2.1.source_pos ∧
  ∀ tok, x.2.2 = some tok →
    s.source_pos ≤ tok.start ∧ tok.start ≤ tok.stop ∧
    tok.stop ≤ x.2.1.source_pos ∧ tok.stop ≤ s.source.length

/-- One engine step: some `jc_next_token` call (with or without a token
slot) returns a defined result and moves the state from `s1` to `s2`. -/
def jcStep (s1 s2 : jc_state) : Prop :=
  ∃ w r t, jc_next_token s1 w = some (r, s2, t)

/-- The state used by the C5 witness: nothing expected, with the given
source. -/
def jcDoneState (src : List Char) : jc_state :=
  { source := src, source_pos := 0, nesting_stack := jcAnyStack,
    nesting_level := JC_NO_NESTING_LEVEL,
    expected_token_types := JC_NO_TOKENS_EXPECTED }

/-- The state used by the C7 witness: inside an open object frame, with a
comma as the current character and the comma token expected. -/
def jcCommaObjState : jc_state :=
  { source := ",1".data, source_pos := 0,
    nesting_stack := fun _ => JC_NESTING_TYPE_OBJECT, nesting_level := 0,
    expected_token_types := JC_TOKEN_TYPE_COMMA }

/-- The reachability invariant for C10: the nesting level stays in
`[-1, max-1]`, and whenever an object-end (resp. array-end) token is in
the expected set the nesting stack is non-empty. -/
def jcInv (st : jc_state) : Prop :=
  JC_NO_NESTING_LEVEL ≤ st.nesting_level ∧
  st.nesting_level < JC_MAX_NESTING_LEVEL ∧
  ((st.expected_token_types &&& JC_TOKEN_TYPE_OBJECT_END) ≠ 0 →
    0 ≤ st.nesting_level) ∧
  ((st.expected_token_types &&& JC_TOKEN_TYPE_ARRAY_END) ≠ 0 →
    0 ≤ st.nesting_level)

/-- A state is reachable when some successful init produced it or some
chain of defined next calls leads to it from an init state (with any
contents in the uninitialized stack array). -/
def jcReachable (st : jc_state) : Prop :=
  ∃ src stack0,
    Relation.ReflTransGen jcStep (jc_initial_state src stack0) st

/-- The state used by the C3 witness: nesting already at full capacity
(level 7, depth 8). -/
def jcFullState : jc_state :=
  { source := [], source_pos := 0, nesting_stack := jcAnyStack,
    nesting_level := 7, expected_token_types := JC_TOKEN_TYPE_VALUE }

/-! ## Basic facts about buffer reads and the scanning loops -/

theorem jcChar_eq_null_of_le {src : List Char} {i : Nat} (h : src.length ≤ i) :
    jcChar src i = JC_CHAR_NULL :=
  List.getD_eq_default _ _ h

theorem lt_length_of_jcChar_ne_null {src : List Char} {i : Nat}
    (h : jcChar src i ≠ JC_CHAR_NULL) : i < src.length := by
  by_contra hc
  push_neg at hc
  exact h (jcChar_eq_null_of_le hc)

theorem jc_isspace_ne_null {c : Char} (h : jc_isspace c = true) :
    c ≠ JC_CHAR_NULL := by
  intro he
  subst he
  simp [jc_isspace, JC_CHAR_NULL] at h

theorem jcSkipWsGo_ge (src : List Char) :
    ∀ fuel pos, pos ≤ jcSkipWsGo src pos fuel := by
  intro fuel
  induction fuel with
  | zero => intro pos; simp [jcSkipWsGo]
  | succ n ih =>
      intro pos
      simp only [jcSkipWsGo]
      split
      · exact le_trans (Nat.le_succ pos) (ih (pos + 1))
      · exact le_refl pos

theorem jcSkipWsPos_ge (src : List Char) (pos : Nat) :
    pos ≤ jcSkipWsPos src pos :=
  jcSkipWsGo_ge src _ pos

@[simp] theorem jc_skip_whitespace_source (st : jc_state) :
    (jc_skip_whitespace st).source = st.source := rfl

@[simp] theorem jc_skip_whitespace_expected (st : jc_state) :
    (jc_skip_whitespace st).expected_token_types = st.expected_token_types :=
  rfl

@[simp] theorem jc_skip_whitespace_level (st : jc_state) :
    (jc_skip_whitespace st).nesting_level = st.nesting_level := rfl

@[simp] theorem jc_skip_whitespace_stack (st : jc_state) :
    (jc_skip_whitespace st).nesting_stack = st.nesting_stack := rfl

theorem jc_skip_whitespace_pos_ge (st : jc_state) :
    st.source_pos ≤ (jc_skip_whitespace st).source_pos :=
  jcSkipWsPos_ge st.source st.source_pos

@[simp] theorem jc_advance_source_pos_fields (st : jc_state) (n : Nat) :
    (jc_advance_source_pos st n).source = st.source ∧
    (jc_advance_source_pos st n).source_pos = st.source_pos + n ∧
    (jc_advance_source_pos st n).nesting_level = st.nesting_level ∧
    (jc_advance_source_pos st n).nesting_stack = st.nesting_stack ∧
    (jc_advance_source_pos st n).expected_token_types =
      st.expected_token_types :=
  ⟨rfl, rfl, rfl, rfl, rfl⟩

@[simp] theorem jc_expect_next_fields (st : jc_state) (e : Nat) :
    (jc_expect_next st e).source = st.source ∧
    (jc_expect_next st e).source_pos = st.source_pos ∧
    (jc_expect_next st e).nesting_level = st.nesting_level ∧
    (jc_expect_next st e).nesting_stack = st.nesting_stack ∧
    (jc_expect_next st e).expected_token_types = e :=
  ⟨rfl, rfl, rfl, rfl, rfl⟩

theorem jcSearchDquoteGo_some (src : List Char) :
    ∀ fuel i q, jcSearchDquoteGo src i fuel = some q →
      i ≤ q ∧ jcChar src q = JC_CHAR_DQUOTE := by
  intro fuel
  induction fuel with
  | zero => intro i q h; simp [jcSearchDquoteGo] at h
  | succ n ih =>
      intro i q h
      simp only [jcSearchDquoteGo] at h
      split at h
      · rename_i hq
        have hiq : i = q := by injection h
        subst hiq
        exact ⟨le_refl _, by simpa using hq⟩
      · split at h
        · exact absurd h (by simp)
        · split at h
          · obtain ⟨h1, h2⟩ := ih (i + 2) q h
            exact ⟨by omega, h2⟩
          · obtain ⟨h1, h2⟩ := ih (i + 1) q h
            exact ⟨by omega, h2⟩

theorem jc_search_dquote_some {src : List Char} {i q : Nat}
    (h : jc_search_dquote src i = some q) :
    i ≤ q ∧ jcChar src q = JC_CHAR_DQUOTE ∧ q < src.length := by
  obtain ⟨h1, h2⟩ := jcSearchDquoteGo_some src _ i q h
  refine ⟨h1, h2, lt_length_of_jcChar_ne_null ?_⟩
  rw [h2]
  decide

theorem jcNumberRunLen_some {src : List Char} {pos k : Nat}
    (h : jcNumberRunLen src pos = some k) : pos + k < src.length := by
  unfold jcNumberRunLen at h
  have hm := List.mem_of_find?_eq_some h
  rw [List.mem_range] at hm
  omega

theorem jcMatchLiteral_char {src : List Char} {pos : Nat} {lit : List Char}
    (h : jcMatchLiteral src pos lit = true) {j : Nat} (hj : j < lit.length) :
    jcChar src (pos + j) = lit.getD j JC_CHAR_NULL := by
  unfold jcMatchLiteral at h
  rw [List.all_eq_true] at h
  have := h j (List.mem_range.mpr hj)
  exact beq_iff_eq.mp this

theorem jcMatchLiteral_bound {src : List Char} {pos : Nat} {lit : List Char}
    (hnn : JC_CHAR_NULL ∉ lit) (hne : lit ≠ [])
    (h : jcMatchLiteral src pos lit = true) :
    pos + lit.length ≤ src.length := by
  have hlen : 0 < lit.length := List.length_pos.mpr hne
  have hc := jcMatchLiteral_char h (j := lit.length - 1) (by omega)
  have hmem : lit.getD (lit.length - 1) JC_CHAR_NULL ∈ lit := by
    rw [List.getD_eq_getElem _ _ (by omega)]
    exact List.getElem_mem _
  have hne2 : jcChar src (pos + (lit.length - 1)) ≠ JC_CHAR_NULL := by
    rw [hc]
    intro he
    rw [he] at hmem
    exact hnn hmem
  have := lt_length_of_jcChar_ne_null hne2
  omega

theorem jc_is_expected_expected_ne_zero {st : jc_state} {ty : Nat}
    (hty : ty ≠ 0) (h : jc_is_expected st ty = true) :
    st.expected_token_types ≠ 0 := by
  intro he
  unfold jc_is_expected at h
  rw [if_neg (by simpa [JC_NO_TOKENS_EXPECTED] using hty)] at h
  simp [he] at h

@[simp] theorem jc_nest_state_fields (st : jc_state) (ty : jc_nesting_type) :
    ((jc_nest st ty).2).source = st.source ∧
    ((jc_nest st ty).2).source_pos = st.source_pos ∧
    ((jc_nest st ty).2).expected_token_types = st.expected_token_types := by
  unfold jc_nest
  split <;> exact ⟨rfl, rfl, rfl⟩

@[simp] theorem jc_unnest_state_fields (st : jc_state) :
    ((jc_unnest st).2).source = st.source ∧
    ((jc_unnest st).2).source_pos = st.source_pos ∧
    ((jc_unnest st).2).nesting_stack = st.nesting_stack ∧
    ((jc_unnest st).2).expected_token_types = st.expected_token_types := by
  unfold jc_unnest
  split <;> exact ⟨rfl, rfl, rfl, rfl⟩

theorem jc_make_token_some {s : jc_state} {w : Bool} {ty len : Nat}
    {tok : jc_token} (h : jc_make_token s w ty len = some tok) :
    tok = ⟨ty, s.source_pos, s.source_pos + len⟩ := by
  unfold jc_make_token at h
  split at h
  · exact (Option.some.inj h).symm
  · exact absurd h (by simp)

theorem jc_parse_string_props (s : jc_state) (w : Bool) :
    jcTripleProps s (jc_parse_string_or_field_name s w) := by
  have hSF : ¬ JC_TOKEN_TYPE_STRING = JC_TOKEN_TYPE_FIELD_NAME := by decide
  unfold jcTripleProps jc_parse_string_or_field_name
  split
  · exact ⟨rfl, le_refl _, fun tok ht => absurd ht (by simp)⟩
  · rename_i q heq
    obtain ⟨h1q, hqch, hqlt⟩ := jc_search_dquote_some heq
    split
    · refine ⟨by simp, by simp <;> omega, ?_⟩
      intro tok ht
      have htok := jc_make_token_some ht
      subst htok
      refine ⟨by simp <;> omega, by simp <;> omega, by simp <;> omega,
        by simp <;> omega⟩
    · refine ⟨by simp [hSF], by simp [hSF] <;> omega, ?_⟩
      intro tok ht
      have htok := jc_make_token_some ht
      subst htok
      refine ⟨by simp <;> omega, by simp <;> omega,
        by simp [hSF] <;> omega, by simp <;> omega⟩

theorem jc_parse_number_props (s : jc_state) (w : Bool)
    {x : jc_result × jc_state × Option jc_token}
    (h : jc_parse_number s w = some x) : jcTripleProps s x := by
  unfold jc_parse_number at h
  split at h
  · exact absurd h (by simp)
  · rename_i k heq
    have hk := jcNumberRunLen_some heq
    obtain rfl : (JC_RESULT_OK,
        jc_expect_next (jc_advance_source_pos s k)
          (jc_get_end_token_type_of_current_nesting
            (jc_advance_source_pos s k)),
        jc_make_token s w JC_TOKEN_TYPE_NUMBER k) = x := Option.some.inj h
    refine ⟨rfl, by simp, ?_⟩
    intro tok ht
    have htok := jc_make_token_some ht
    subst htok
    exact ⟨le_refl _, by simp, by simp, by simp; omega⟩

theorem jc_parse_literal_props (s : jc_state) (w : Bool) (ty : Nat)
    (lit : List Char) (hnn : JC_CHAR_NULL ∉ lit) (hne : lit ≠ []) :
    jcTripleProps s (jc_parse_literal s w ty lit) := by
  unfold jcTripleProps jc_parse_literal
  split
  · exact ⟨rfl, le_refl _, fun tok ht => absurd ht (by simp)⟩
  · rename_i hm
    rw [Bool.not_eq_true', Bool.not_eq_false] at hm
    have hb := jcMatchLiteral_bound hnn hne hm
    refine ⟨rfl, by simp, ?_⟩
    intro tok ht
    have htok := jc_make_token_some ht
    subst htok
    exact ⟨le_refl _, by simp, by simp, by simp; omega⟩

/-- Shared facts for the seven one-character-token productions: the
successor state sits one past the pre-skip position and the token, when
stored, is the single character at the scan position. -/
theorem jc_punct_leaf_props {st s : jc_state} (hbs : s.source = st.source)
    (hbp : st.source_pos ≤ s.source_pos)
    (hlt : s.source_pos < s.source.length) {s2 : jc_state} {T : Nat}
    {w : Bool} (h2src : s2.source = s.source)
    (h2pos : s2.source_pos = s.source_pos + 1) :
    s2.source = st.source ∧ st.source_pos ≤ s2.source_pos ∧
    ∀ tok, jc_make_token s w T 1 = some tok →
      st.source_pos ≤ tok.start ∧ tok.start ≤ tok.stop ∧
      tok.stop ≤ s2.source_pos ∧ tok.stop ≤ st.source.length := by
  refine ⟨by rw [h2src, hbs], by omega, ?_⟩
  intro tok ht
  have htok := jc_make_token_some ht
  subst htok
  have hlen : s.source.length = st.source.length := by rw [hbs]
  simp only []
  omega

/-- Per-call frame facts: one `jc_next_token` call never changes the
source, never moves the position backwards, and any token it stores has
`start ≤ stop`, starts at or after the pre-call position, stops at or
before the post-call position, and stops within the source bounds. -/
theorem jc_next_token_props {st : jc_state} {w : Bool}
    {r : jc_result} {st' : jc_state} {t : Option jc_token}
    (h : jc_next_token st w = some (r, st', t)) :
    st'.source = st.source ∧ st.source_pos ≤ st'.source_pos ∧
    ∀ tok, t = some tok →
      st.source_pos ≤ tok.start ∧ tok.start ≤ tok.stop ∧
      tok.stop ≤ st'.source_pos ∧ tok.stop ≤ st.source.length := by
  simp only [jc_next_token] at h
  generalize hsgen : jc_skip_whitespace st = s at h
  have hbs : s.source = st.source := by rw [← hsgen]; rfl
  have hbp : st.source_pos ≤ s.source_pos := by
    rw [← hsgen]
    exact jc_skip_whitespace_pos_ge st
  generalize hcgen : jcChar s.source s.source_pos = c at h
  have hlift : ∀ x : jc_result × jc_state × Option jc_token,
      jcTripleProps s x → x = (r, st', t) →
      st'.source = st.source ∧ st.source_pos ≤ st'.source_pos ∧
      ∀ tok, t = some tok →
        st.source_pos ≤ tok.start ∧ tok.start ≤ tok.stop ∧
        tok.stop ≤ st'.source_pos ∧ tok.stop ≤ st.source.length := by
    rintro ⟨r0, st0, t0⟩ hp heq
    obtain ⟨rfl, rfl, rfl⟩ : r0 = r ∧ st0 = st' ∧ t0 = t := by
      simpa using heq
    obtain ⟨hp1, hp2, hp3⟩ := hp
    refine ⟨by rw [hp1, hbs], le_trans hbp hp2, ?_⟩
    intro tok ht
    obtain ⟨q1, q2, q3, q4⟩ := hp3 tok ht
    exact ⟨le_trans hbp q1, q2, q3, by rw [← hbs]; exact q4⟩
  by_cases h1 : jc_is_expected s JC_NO_TOKENS_EXPECTED = true
  · rw [if_pos h1] at h
    have hx := Option.some.inj h
    rw [Prod.mk.injEq, Prod.mk.injEq] at hx
    obtain ⟨rfl, rfl, rfl⟩ := hx
    exact ⟨hbs, hbp, fun tok ht => absurd ht (by simp)⟩
  rw [if_neg h1] at h
  by_cases h2 : (c == JC_CHAR_NULL) = true
  · rw [if_pos h2] at h
    have hx := Option.some.inj h
    rw [Prod.mk.injEq, Prod.mk.injEq] at hx
    obtain ⟨rfl, rfl, rfl⟩ := hx
    exact ⟨hbs, hbp, fun tok ht => absurd ht (by simp)⟩
  rw [if_neg h2] at h
  have hlt : s.source_pos < s.source.length := by
    refine lt_length_of_jcChar_ne_null ?_
    rw [hcgen]
    simpa using h2
  by_cases h3 : (jc_is_expected s JC_TOKEN_TYPE_OBJECT_START &&
      (c == JC_CHAR_OBJECT_START)) = true
  · rw [if_pos h3] at h
    have hx := Option.some.inj h
    rw [Prod.mk.injEq, Prod.mk.injEq] at hx
    obtain ⟨rfl, rfl, rfl⟩ := hx
    exact jc_punct_leaf_props hbs hbp hlt (by simp) (by simp)
  rw [if_neg h3] at h
  by_cases h4 : (jc_is_expected s JC_TOKEN_TYPE_ARRAY_START &&
      (c == JC_CHAR_ARRAY_START)) = true
  · rw [if_pos h4] at h
    have hx := Option.some.inj h
    rw [Prod.mk.injEq, Prod.mk.injEq] at hx
    obtain ⟨rfl, rfl, rfl⟩ := hx
    exact jc_punct_leaf_props hbs hbp hlt (by simp) (by simp)
  rw [if_neg h4] at h
  by_cases h5 : (jc_is_expected s JC_TOKEN_TYPE_OBJECT_END &&
      (c == JC_CHAR_OBJECT_END)) = true
  · rw [if_pos h5] at h
    by_cases h5b : (jc_unnest (jc_advance_source_pos s 1)).1 ≠ JC_RESULT_OK
    · rw [if_pos h5b] at h
      have hx := Option.some.inj h
      rw [Prod.mk.injEq, Prod.mk.injEq] at hx
      obtain ⟨rfl, rfl, rfl⟩ := hx
      exact jc_punct_leaf_props hbs hbp hlt (by simp) (by simp)
    · rw [if_neg h5b] at h
      have hx := Option.some.inj h
      rw [Prod.mk.injEq, Prod.mk.injEq] at hx
      obtain ⟨rfl, rfl, rfl⟩ := hx
      exact jc_punct_leaf_props hbs hbp hlt (by simp) (by simp)
  rw [if_neg h5] at h
  by_cases h6 : (jc_is_expected s JC_TOKEN_TYPE_ARRAY_END &&
      (c == JC_CHAR_ARRAY_END)) = true
  · rw [if_pos h6] at h
    by_cases h6b : (jc_unnest (jc_advance_source_pos s 1)).1 ≠ JC_RESULT_OK
    · rw [if_pos h6b] at h
      have hx := Option.some.inj h
      rw [Prod.mk.injEq, Prod.mk.injEq] at hx
      obtain ⟨rfl, rfl, rfl⟩ := hx
      exact jc_punct_leaf_props hbs hbp hlt (by simp) (by simp)
    · rw [if_neg h6b] at h
      have hx := Option.some.inj h
      rw [Prod.mk.injEq, Prod.mk.injEq] at hx
      obtain ⟨rfl, rfl, rfl⟩ := hx
      exact jc_punct_leaf_props hbs hbp hlt (by simp) (by simp)
  rw [if_neg h6] at h
  by_cases h7 : (jc_is_expected s JC_TOKEN_TYPE_COLON &&
      (c == JC_CHAR_COLON)) = true
  · rw [if_pos h7] at h
    have hx := Option.some.inj h
    rw [Prod.mk.injEq, Prod.mk.injEq] at hx
    obtain ⟨rfl, rfl, rfl⟩ := hx
    exact jc_punct_leaf_props hbs hbp hlt (by simp) (by simp)
  rw [if_neg h7] at h
  by_cases h8 : (jc_is_expected s JC_TOKEN_TYPE_COMMA &&
      (c == JC_CHAR_COMMA)) = true
  · rw [if_pos h8] at h
    have hx := Option.some.inj h
    rw [Prod.mk.injEq, Prod.mk.injEq] at hx
    obtain ⟨rfl, rfl, rfl⟩ := hx
    exact jc_punct_leaf_props hbs hbp hlt (by simp) (by simp)
  rw [if_neg h8] at h
  by_cases h9 : (jc_is_expected s
      (JC_TOKEN_TYPE_FIELD_NAME ||| JC_TOKEN_TYPE_STRING) &&
      (c == JC_CHAR_DQUOTE)) = true
  · rw [if_pos h9] at h
    exact hlift _ (jc_parse_string_props s w) (Option.some.inj h)
  rw [if_neg h9] at h
  by_cases h10 : (jc_is_expected s JC_TOKEN_TYPE_NUMBER &&
      jcStrchr JC_VALID_CHARS_IN_NUMBER c) = true
  · rw [if_pos h10] at h
    exact hlift _ (jc_parse_number_props s w h) rfl
  rw [if_neg h10] at h
  by_cases h11 : (jc_is_expected s JC_TOKEN_TYPE_TRUE &&
      jcStrchr JC_LIT_TRUE c) = true
  · rw [if_pos h11] at h
    exact hlift _ (jc_parse_literal_props s w JC_TOKEN_TYPE_TRUE
      JC_LIT_TRUE (by decide) (by decide)) (Option.some.inj h)
  rw [if_neg h11] at h
  by_cases h12 : (jc_is_expected s JC_TOKEN_TYPE_FALSE &&
      jcStrchr JC_LIT_FALSE c) = true
  · rw [if_pos h12] at h
    exact hlift _ (jc_parse_literal_props s w JC_TOKEN_TYPE_FALSE
      JC_LIT_FALSE (by decide) (by decide)) (Option.some.inj h)
  rw [if_neg h12] at h
  by_cases h13 : (jc_is_expected s JC_TOKEN_TYPE_NULL &&
      jcStrchr JC_LIT_NULL c) = true
  · rw [if_pos h13] at h
    exact hlift _ (jc_parse_literal_props s w JC_TOKEN_TYPE_NULL
      JC_LIT_NULL (by decide) (by decide)) (Option.some.inj h)
  rw [if_neg h13] at h
  have hx := Option.some.inj h
  rw [Prod.mk.injEq, Prod.mk.injEq] at hx
  obtain ⟨rfl, rfl, rfl⟩ := hx
  exact ⟨hbs, hbp, fun tok ht => absurd ht (by simp)⟩

theorem jcStep_source {s1 s2 : jc_state} (h : jcStep s1 s2) :
    s2.source = s1.source := by
  obtain ⟨w, r, t, h⟩ := h
  exact (jc_next_token_props h).1

theorem jcStep_pos {s1 s2 : jc_state} (h : jcStep s1 s2) :
    s1.source_pos ≤ s2.source_pos := by
  obtain ⟨w, r, t, h⟩ := h
  exact (jc_next_token_props h).2.1

theorem jcStepMulti_props {s1 s2 : jc_state}
    (h : Relation.ReflTransGen jcStep s1 s2) :
    s2.source = s1.source ∧ s1.source_pos ≤ s2.source_pos := by
  induction h with
  | refl => exact ⟨rfl, le_refl _⟩
  | tail hab hbc ih =>
      exact ⟨(jcStep_source hbc).trans ih.1,
        le_trans ih.2 (jcStep_pos hbc)⟩

/-! ## Claims -/

/-- C1 (code bug): the spec says scanning the source `42` yields the single
token `{NUMBER, 0, 2}` and then end of input, the number sub-scanner
stopping at the terminating null.  In the code, the loop condition of
`jc_parse_number` is `strchr(JC_VALID_CHARS_IN_NUMBER, c) != NULL`, which
is true for the null character itself (first conjunct), so on `42` the
scan does not stop at the terminating null: it runs past the end of the
buffer (second and third conjuncts: the run length search falls off the
buffer, and the step returns the undefined-behaviour marker instead of
the claimed token). -/
theorem claim_C1 :
    jcStrchr JC_VALID_CHARS_IN_NUMBER JC_CHAR_NULL = true ∧
    jcNumberRunLen "42".data 0 = none ∧
    jc_next_token (jc_initial_state "42".data jcAnyStack) true = none :=
  ⟨by decide, by decide, rfl⟩

/-- C3, counterexample to the claim as stated: on nine opening brackets the
ninth call returns `MAX_NESTING_REACHED`, but the token output slot IS
populated for the offending character (with the would-be array-start token
`{ARRAY_START, 8, 9}`), because `jc_next_token` calls `jc_make_token`
before `jc_nest` reports the overflow. -/
theorem claim_C3_counterexample :
    (jcSteps (jc_initial_state "[[[[[[[[[".data jcAnyStack) true 9).map
        Prod.snd =
      some [(JC_RESULT_OK, some ⟨JC_TOKEN_TYPE_ARRAY_START, 0, 1⟩),
            (JC_RESULT_OK, some ⟨JC_TOKEN_TYPE_ARRAY_START, 1, 2⟩),
            (JC_RESULT_OK, some ⟨JC_TOKEN_TYPE_ARRAY_START, 2, 3⟩),
            (JC_RESULT_OK, some ⟨JC_TOKEN_TYPE_ARRAY_START, 3, 4⟩),
            (JC_RESULT_OK, some ⟨JC_TOKEN_TYPE_ARRAY_START, 4, 5⟩),
            (JC_RESULT_OK, some ⟨JC_TOKEN_TYPE_ARRAY_START, 5, 6⟩),
            (JC_RESULT_OK, some ⟨JC_TOKEN_TYPE_ARRAY_START, 6, 7⟩),
            (JC_RESULT_OK, some ⟨JC_TOKEN_TYPE_ARRAY_START, 7, 8⟩),
            (JC_RESULT_ERR_MAX_NESTING_REACHED,
              some ⟨JC_TOKEN_TYPE_ARRAY_START, 8, 9⟩)] := by
  decide

/-- C3 (amended): nesting exactly at the configured maximum (8) succeeds —
eight opening brackets all yield Ok start tokens — and the start token one
level beyond the maximum returns `MAX_NESTING_REACHED` (`jc_nest` fails
exactly when the level is already at capacity and leaves the state
untouched); the token output slot, if supplied, is nevertheless populated
with the start token for the offending character. -/
theorem claim_C3 :
    ((jcSteps (jc_initial_state "[[[[[[[[".data jcAnyStack) true 8).map
        Prod.snd =
      some [(JC_RESULT_OK, some ⟨JC_TOKEN_TYPE_ARRAY_START, 0, 1⟩),
            (JC_RESULT_OK, some ⟨JC_TOKEN_TYPE_ARRAY_START, 1, 2⟩),
            (JC_RESULT_OK, some ⟨JC_TOKEN_TYPE_ARRAY_START, 2, 3⟩),
            (JC_RESULT_OK, some ⟨JC_TOKEN_TYPE_ARRAY_START, 3, 4⟩),
            (JC_RESULT_OK, some ⟨JC_TOKEN_TYPE_ARRAY_START, 4, 5⟩),
            (JC_RESULT_OK, some ⟨JC_TOKEN_TYPE_ARRAY_START, 5, 6⟩),
            (JC_RESULT_OK, some ⟨JC_TOKEN_TYPE_ARRAY_START, 6, 7⟩),
            (JC_RESULT_OK, some ⟨JC_TOKEN_TYPE_ARRAY_START, 7, 8⟩)]) ∧
    (∀ st ty,
      ((jc_nest st ty).1 = JC_RESULT_ERR_MAX_NESTING_REACHED ↔
        JC_MAX_NESTING_LEVEL - 1 ≤ st.nesting_level) ∧
      (JC_MAX_NESTING_LEVEL - 1 ≤ st.nesting_level →
        jc_nest st ty = (JC_RESULT_ERR_MAX_NESTING_REACHED, st))) := by
  constructor
  · decide
  · intro st ty
    constructor
    · unfold jc_nest
      split
      · rename_i hge
        simpa using hge
      · rename_i hlt
        simp only [ge_iff_le, not_le] at hlt
        simp only [iff_false, not_le]
        constructor
        · intro h
          exact absurd h (by simp)
        · omega
    · intro hge
      unfold jc_nest
      rw [if_pos (by simpa using hge)]

/-- C4, counterexample to the claim as stated: a state whose nesting depth
is far out of bounds (42, beyond the capacity of 8) is not rejected at
the start of the call — on source `1]` the call happily returns Ok — so
next does NOT validate the nesting depth at entry. -/
theorem claim_C4_counterexample :
    (jc_next_token_ptr
        (some { source := "1]".data, source_pos := 0,
                nesting_stack := jcAnyStack, nesting_level := 42,
                expected_token_types := JC_TOKEN_TYPE_VALUE }) true).map
        (fun x => x.1) = some JC_RESULT_OK ∧
    ¬ (42 : Int) < JC_MAX_NESTING_LEVEL := by
  constructor
  · decide
  · decide

/-- C4 (amended): at the start of every next call the engine validates only
that the state handle is non-null, returning `CORRUPTED_STATE` for a null
handle before consuming any input; the nesting depth is NOT validated at
entry (a state with depth below the empty level, here −5, still proceeds
and returns Ok on source `1]`). -/
theorem claim_C4 :
    (∀ w, jc_next_token_ptr none w =
      some (JC_RESULT_ERR_CORRUPTED_STATE, none, none)) ∧
    (jc_next_token_ptr
        (some { source := "1]".data, source_pos := 0,
                nesting_stack := jcAnyStack, nesting_level := -5,
                expected_token_types := JC_TOKEN_TYPE_VALUE }) true).map
        (fun x => x.1) = some JC_RESULT_OK :=
  ⟨fun _ => rfl, by decide⟩

/-- C8: `jc_init` returns `CANT_INIT` exactly when the state pointer or the
source pointer is null; on success it stores the source and sets the scan
position to 0, the nesting depth to −1 and the expected-token-set to the
any-value mask, leaving the nesting stack array untouched (no other
effect). -/
theorem claim_C8 :
    (∀ state source, ((jc_init state source).1 = JC_RESULT_ERR_CANT_INIT ↔
      state = none ∨ source = none)) ∧
    (∀ st src, jc_init (some st) (some src) =
      (JC_RESULT_OK, some { source := src, source_pos := 0,
                            nesting_stack := st.nesting_stack,
                            nesting_level := JC_NO_NESTING_LEVEL,
                            expected_token_types := JC_TOKEN_TYPE_VALUE })) := by
  constructor
  · intro state source
    cases state <;> cases source <;> simp [jc_init]
  · intro st src
    rfl

/-- A Bool conjunction whose right operand is false is not true. -/
theorem bool_and_false_ne {a b : Bool} (hb : b = false) :
    ¬ (a && b) = true := by
  simp [hb]

/-- C5: after whitespace skipping, an empty expected-token-set yields
`EOF` on the terminating null and `GARBAGE` otherwise, and a non-empty
expected-token-set on the terminating null yields `UNEXPECTED_EOF`; in
all three cases no token is written and the state is only advanced past
the whitespace. -/
theorem claim_C5 (st : jc_state) (w : Bool) :
    (st.expected_token_types = JC_NO_TOKENS_EXPECTED →
      jc_next_token st w =
        some ((if jcChar (jc_skip_whitespace st).source
              (jc_skip_whitespace st).source_pos == JC_CHAR_NULL then
            JC_RESULT_EOF
          else JC_RESULT_ERR_GARBAGE), jc_skip_whitespace st, none)) ∧
    (st.expected_token_types ≠ JC_NO_TOKENS_EXPECTED →
      jcChar (jc_skip_whitespace st).source
          (jc_skip_whitespace st).source_pos = JC_CHAR_NULL →
      jc_next_token st w =
        some (JC_RESULT_ERR_UNEXPECTED_EOF, jc_skip_whitespace st, none)) := by
  constructor
  · intro h0
    have h1 : jc_is_expected (jc_skip_whitespace st)
        JC_NO_TOKENS_EXPECTED = true := by
      simp [jc_is_expected, JC_NO_TOKENS_EXPECTED, h0]
    simp only [jc_next_token]
    rw [if_pos h1]
  · intro hne hnull
    have h1 : ¬ jc_is_expected (jc_skip_whitespace st)
        JC_NO_TOKENS_EXPECTED = true := by
      simp [jc_is_expected, JC_NO_TOKENS_EXPECTED]
      exact hne
    simp only [jc_next_token]
    rw [if_neg h1, if_pos (by rw [hnull]; decide)]

/-- C5 witness: on source `x` with nothing expected the call returns
`GARBAGE`; on the empty source with nothing expected it returns `EOF`; on
the empty source right after init (everything expected) it returns
`UNEXPECTED_EOF`. -/
theorem claim_C5_witness :
    (jc_next_token (jcDoneState "x".data) true).map
      (fun x => x.1) = some JC_RESULT_ERR_GARBAGE ∧
    (jc_next_token (jcDoneState []) true).map
      (fun x => x.1) = some JC_RESULT_EOF ∧
    (jc_next_token (jc_initial_state [] jcAnyStack) true).map
      (fun x => x.1) = some JC_RESULT_ERR_UNEXPECTED_EOF := by
  refine ⟨?_, ?_, ?_⟩
  · rw [(claim_C5 (jcDoneState "x".data) true).1 rfl]
    decide
  · rw [(claim_C5 (jcDoneState []) true).1 rfl]
    decide
  · rw [(claim_C5 (jc_initial_state [] jcAnyStack) true).2
      (by decide) (by decide)]
    decide

/-- C6: with a double quote as current character and string or field-name
expected, the scanner searches forward from the opening quote (treating a
backslash followed by a non-null character as a two-character escape, as
embodied in `jc_search_dquote`): if the terminating null is reached first
the call returns `UNEXPECTED_EOF` and writes no token; otherwise, with
the closing quote at `q`, the call returns Ok, the emitted token spans
`[start+1, q)` — excluding both wrapping quotes — its kind is field-name
exactly when field-name was expected (else string), and the position
advances past the closing quote to `q + 1`. -/
theorem claim_C6 (st : jc_state) (w : Bool)
    (hexp : jc_is_expected (jc_skip_whitespace st)
      (JC_TOKEN_TYPE_FIELD_NAME ||| JC_TOKEN_TYPE_STRING) = true)
    (hch : jcChar (jc_skip_whitespace st).source
      (jc_skip_whitespace st).source_pos = JC_CHAR_DQUOTE) :
    (jc_search_dquote (jc_skip_whitespace st).source
        ((jc_skip_whitespace st).source_pos + 1) = none →
      jc_next_token st w =
        some (JC_RESULT_ERR_UNEXPECTED_EOF, jc_skip_whitespace st, none)) ∧
    (∀ q, jc_search_dquote (jc_skip_whitespace st).source
        ((jc_skip_whitespace st).source_pos + 1) = some q →
      (jc_next_token st w).map (fun x => (x.1, x.2.1.source_pos, x.2.2)) =
        some (JC_RESULT_OK, q + 1,
          if w then
            some ⟨(if jc_is_expected (jc_skip_whitespace st)
                  JC_TOKEN_TYPE_FIELD_NAME then JC_TOKEN_TYPE_FIELD_NAME
                else JC_TOKEN_TYPE_STRING),
              (jc_skip_whitespace st).source_pos + 1, q⟩
          else none)) := by
  have hne0 : st.expected_token_types ≠ 0 :=
    jc_is_expected_expected_ne_zero (by decide) hexp
  have hbranch : jc_next_token st w =
      some (jc_parse_string_or_field_name (jc_skip_whitespace st) w) := by
    simp only [jc_next_token]
    rw [if_neg (by simp [jc_is_expected, JC_NO_TOKENS_EXPECTED, hne0])]
    rw [if_neg (by rw [hch]; decide)]
    rw [if_neg (bool_and_false_ne (by rw [hch]; decide))]
    rw [if_neg (bool_and_false_ne (by rw [hch]; decide))]
    rw [if_neg (bool_and_false_ne (by rw [hch]; decide))]
    rw [if_neg (bool_and_false_ne (by rw [hch]; decide))]
    rw [if_neg (bool_and_false_ne (by rw [hch]; decide))]
    rw [if_neg (bool_and_false_ne (by rw [hch]; decide))]
    rw [if_pos (by rw [hch]; simp [hexp])]
  constructor
  · intro hnone
    rw [hbranch]
    simp only [jc_parse_string_or_field_name]
    rw [hnone]
  · intro q hq
    obtain ⟨h1q, hqch, hqlt⟩ := jc_search_dquote_some hq
    rw [hbranch]
    simp only [jc_parse_string_or_field_name]
    rw [hq]
    cases hfn : jc_is_expected (jc_skip_whitespace st)
        JC_TOKEN_TYPE_FIELD_NAME with
    | false =>
        simp only [hfn, Bool.false_eq_true, if_false]
        rw [if_neg (show ¬ JC_TOKEN_TYPE_STRING = JC_TOKEN_TYPE_FIELD_NAME by
          decide)]
        simp only [Option.map_some', jc_make_token, jc_advance_source_pos,
          jc_expect_next]
        cases w <;> simp <;> omega
    | true =>
        simp only [hfn, if_true]
        simp only [Option.map_some', jc_make_token, jc_advance_source_pos,
          jc_expect_next]
        cases w <;> simp <;> omega

/-- C6 witness: on the source consisting of `"ab"` the first call returns
Ok with the string token `(1, 3)` (quotes excluded) and stops right after
the closing quote at position 4; on the truncated source `"ab` it
returns `UNEXPECTED_EOF`. -/
theorem claim_C6_witness :
    (jc_next_token (jc_initial_state "\"ab\"".data jcAnyStack) true).map
      (fun x => (x.1, x.2.1.source_pos, x.2.2)) =
      some (JC_RESULT_OK, 4, some ⟨JC_TOKEN_TYPE_STRING, 1, 3⟩) ∧
    (jc_next_token (jc_initial_state "\"ab".data jcAnyStack) true).map
      (fun x => x.1) = some JC_RESULT_ERR_UNEXPECTED_EOF := by
  constructor
  · have h := (claim_C6 (jc_initial_state "\"ab\"".data jcAnyStack) true
      (by decide) (by decide)).2 3 (by decide)
    simpa using h
  · rw [(claim_C6 (jc_initial_state "\"ab".data jcAnyStack) true
      (by decide) (by decide)).1 (by decide)]
    decide

theorem jc_parse_string_or_field_name_false (st : jc_state) :
    jc_parse_string_or_field_name st false =
      ((jc_parse_string_or_field_name st true).1,
        (jc_parse_string_or_field_name st true).2.1,
        if false then (jc_parse_string_or_field_name st true).2.2
        else none) := by
  unfold jc_parse_string_or_field_name
  cases jc_search_dquote st.source (st.source_pos + 1) <;>
    simp [jc_make_token]

theorem jc_parse_number_false (st : jc_state) :
    jc_parse_number st false = (jc_parse_number st true).map
      (fun x => (x.1, x.2.1, if false then x.2.2 else none)) := by
  unfold jc_parse_number
  cases jcNumberRunLen st.source st.source_pos <;> simp [jc_make_token]

theorem jc_parse_literal_false (st : jc_state) (ty : Nat) (lit : List Char) :
    jc_parse_literal st false ty lit =
      ((jc_parse_literal st true ty lit).1,
        (jc_parse_literal st true ty lit).2.1,
        if false then (jc_parse_literal st true ty lit).2.2 else none) := by
  unfold jc_parse_literal
  cases hm : jcMatchLiteral st.source st.source_pos lit <;>
    simp [hm, jc_make_token]

/-- C9: a call with the token out-slot omitted returns the same result
code and the same successor state as the call with a slot supplied; the
only difference is that nothing is written to the slot. -/
theorem claim_C9 (st : jc_state) (w : Bool) :
    jc_next_token st w = (jc_next_token st true).map
      (fun x => (x.1, x.2.1, if w then x.2.2 else none)) := by
  cases w with
  | true =>
      cases h : jc_next_token st true <;> simp
  | false =>
      simp only [jc_next_token]
      generalize jc_skip_whitespace st = s
      generalize jcChar s.source s.source_pos = c
      simp only [jc_parse_string_or_field_name_false, jc_parse_number_false,
        jc_parse_literal_false,
        apply_ite (Option.map
          (fun x : jc_result × jc_state × Option jc_token =>
            (x.1, x.2.1, if false then x.2.2 else none))),
        Option.map_some']
      rfl

/-- C7: when a comma is consumed inside an open frame, the new
expected-token-set is `{FIELD_NAME}` if the enclosing frame is an object
and the any-value set if it is an array; concretely, on `[1,]` the calls
yield `ARRAY_START(0,1)`, `NUMBER(1,2)`, `COMMA(2,3)` and then
`UNEXPECTED_TOKEN` on the closing bracket, with no array-end token
emitted. -/
theorem claim_C7 (st : jc_state) (w : Bool)
    (hexp : jc_is_expected (jc_skip_whitespace st) JC_TOKEN_TYPE_COMMA = true)
    (hch : jcChar (jc_skip_whitespace st).source
      (jc_skip_whitespace st).source_pos = JC_CHAR_COMMA)
    (hlvl : 0 ≤ st.nesting_level ∧
      st.nesting_level < JC_MAX_NESTING_LEVEL) :
    ((jc_next_token st w).map (fun x => (x.1, x.2.1.expected_token_types)) =
      some (JC_RESULT_OK,
        if st.nesting_stack st.nesting_level = JC_NESTING_TYPE_OBJECT then
          JC_TOKEN_TYPE_FIELD_NAME
        else JC_TOKEN_TYPE_VALUE)) ∧
    (jcSteps (jc_initial_state "[1,]".data jcAnyStack) true 4).map Prod.snd =
      some [(JC_RESULT_OK, some ⟨JC_TOKEN_TYPE_ARRAY_START, 0, 1⟩),
            (JC_RESULT_OK, some ⟨JC_TOKEN_TYPE_NUMBER, 1, 2⟩),
            (JC_RESULT_OK, some ⟨JC_TOKEN_TYPE_COMMA, 2, 3⟩),
            (JC_RESULT_ERR_UNEXPECTED_TOKEN, none)] := by
  constructor
  · have hne0 : st.expected_token_types ≠ 0 :=
      jc_is_expected_expected_ne_zero (by decide) hexp
    have hrange : JC_NO_NESTING_LEVEL < st.nesting_level ∧
        st.nesting_level < JC_MAX_NESTING_LEVEL :=
      ⟨by simp only [JC_NO_NESTING_LEVEL]; omega, hlvl.2⟩
    simp only [jc_next_token]
    rw [if_neg (by simp [jc_is_expected, JC_NO_TOKENS_EXPECTED, hne0])]
    rw [if_neg (by rw [hch]; decide)]
    rw [if_neg (bool_and_false_ne (by rw [hch]; decide))]
    rw [if_neg (bool_and_false_ne (by rw [hch]; decide))]
    rw [if_neg (bool_and_false_ne (by rw [hch]; decide))]
    rw [if_neg (bool_and_false_ne (by rw [hch]; decide))]
    rw [if_neg (bool_and_false_ne (by rw [hch]; decide))]
    rw [if_pos (by rw [hch]; simp [hexp])]
    simp [jc_get_token_type_after_comma_of_current_nesting,
      jc_advance_source_pos, jc_expect_next, hrange]
  · decide

/-- C7 witness: in an open object frame with a comma expected, consuming
the comma makes exactly the field-name token expected. -/
theorem claim_C7_witness :
    (jc_next_token jcCommaObjState true).map
      (fun x => (x.1, x.2.1.expected_token_types)) =
      some (JC_RESULT_OK, JC_TOKEN_TYPE_FIELD_NAME) := by
  have h := (claim_C7 jcCommaObjState true
    (by decide) (by decide) ⟨by decide, by decide⟩).1
  simpa [jcCommaObjState] using h

/-- C2: every token stored by an Ok call satisfies
`start ≤ stop ≤ length(source)`, and across an Ok call, any number of
further calls, and another Ok call, the token offsets are non-decreasing:
the first token stops at or before the point where the later token
starts. -/
theorem claim_C2 (s₁ s₂ s₃ s₄ : jc_state) (w₁ w₂ : Bool)
    (r₁ r₂ : jc_result) (t₁ t₂ : jc_token)
    (h₁ : jc_next_token s₁ w₁ = some (r₁, s₂, some t₁))
    (hr₁ : r₁ = JC_RESULT_OK)
    (h₂ : Relation.ReflTransGen jcStep s₂ s₃)
    (h₃ : jc_next_token s₃ w₂ = some (r₂, s₄, some t₂))
    (hr₂ : r₂ = JC_RESULT_OK) :
    (t₁.start ≤ t₁.stop ∧ t₁.stop ≤ s₁.source.length) ∧
    (t₂.start ≤ t₂.stop ∧ t₂.stop ≤ s₁.source.length) ∧
    t₁.stop ≤ t₂.start := by
  obtain ⟨e1, e2, etok⟩ := jc_next_token_props h₁
  obtain ⟨f1, f2⟩ := jcStepMulti_props h₂
  obtain ⟨g1, g2, gtok⟩ := jc_next_token_props h₃
  obtain ⟨a1, a2, a3, a4⟩ := etok t₁ rfl
  obtain ⟨b1, b2, b3, b4⟩ := gtok t₂ rfl
  refine ⟨⟨a2, a4⟩, ⟨b2, ?_⟩, ?_⟩
  · rw [f1, e1] at b4
    exact b4
  · calc t₁.stop ≤ s₂.source_pos := a3
      _ ≤ s₃.source_pos := f2
      _ ≤ t₂.start := b1

/-- C2 witness: on source `[]`, the first call stores `ARRAY_START(0,1)`
and the second stores `ARRAY_END(1,2)`; both are in bounds and the second
starts where the first stopped. -/
theorem claim_C2_witness :
    (((⟨JC_TOKEN_TYPE_ARRAY_START, 0, 1⟩ : jc_token).start ≤
        (⟨JC_TOKEN_TYPE_ARRAY_START, 0, 1⟩ : jc_token).stop ∧
      (⟨JC_TOKEN_TYPE_ARRAY_START, 0, 1⟩ : jc_token).stop ≤
        (jc_initial_state "[]".data jcAnyStack).source.length) ∧
     ((⟨JC_TOKEN_TYPE_ARRAY_END, 1, 2⟩ : jc_token).start ≤
        (⟨JC_TOKEN_TYPE_ARRAY_END, 1, 2⟩ : jc_token).stop ∧
      (⟨JC_TOKEN_TYPE_ARRAY_END, 1, 2⟩ : jc_token).stop ≤
        (jc_initial_state "[]".data jcAnyStack).source.length) ∧
     (⟨JC_TOKEN_TYPE_ARRAY_START, 0, 1⟩ : jc_token).stop ≤
        (⟨JC_TOKEN_TYPE_ARRAY_END, 1, 2⟩ : jc_token).start) :=
  claim_C2 (jc_initial_state "[]".data jcAnyStack) _ _ _ true true
    JC_RESULT_OK JC_RESULT_OK ⟨JC_TOKEN_TYPE_ARRAY_START, 0, 1⟩
    ⟨JC_TOKEN_TYPE_ARRAY_END, 1, 2⟩ rfl rfl Relation.ReflTransGen.refl
    rfl rfl

theorem jcInv_initial (src : List Char) (stack0 : Int → jc_nesting_type) :
    jcInv (jc_initial_state src stack0) :=
  ⟨show (-1 : Int) ≤ -1 by decide, show (-1 : Int) < 8 by decide,
    fun hx => absurd (show JC_TOKEN_TYPE_VALUE &&&
      JC_TOKEN_TYPE_OBJECT_END = 0 by decide) hx,
    fun hx => absurd (show JC_TOKEN_TYPE_VALUE &&&
      JC_TOKEN_TYPE_ARRAY_END = 0 by decide) hx⟩

theorem jc_is_expected_mask {st : jc_state} {ty : Nat} (hty : ty ≠ 0)
    (h : jc_is_expected st ty = true) :
    (st.expected_token_types &&& ty) ≠ 0 := by
  unfold jc_is_expected at h
  rw [if_neg (by simpa [JC_NO_TOKENS_EXPECTED] using hty)] at h
  simpa using h

/-- The comma-or-end mask produced by
`jc_get_end_token_type_of_current_nesting` contains an end token only
when the nesting stack it was computed from is non-empty. -/
theorem jc_end_token_imp (s2 : jc_state) :
    ((jc_get_end_token_type_of_current_nesting s2 &&&
        JC_TOKEN_TYPE_OBJECT_END) ≠ 0 → 0 ≤ s2.nesting_level) ∧
    ((jc_get_end_token_type_of_current_nesting s2 &&&
        JC_TOKEN_TYPE_ARRAY_END) ≠ 0 → 0 ≤ s2.nesting_level) := by
  unfold jc_get_end_token_type_of_current_nesting
  split
  · rename_i hr
    have h1 : (-1 : Int) < s2.nesting_level := hr.1
    exact ⟨fun _ => by omega, fun _ => by omega⟩
  · exact ⟨fun hx => absurd (by decide) hx, fun hx => absurd (by decide) hx⟩

/-- The after-comma mask never contains an end token. -/
theorem jc_after_comma_no_ends (s2 : jc_state) :
    (jc_get_token_type_after_comma_of_current_nesting s2 &&&
      JC_TOKEN_TYPE_OBJECT_END) = 0 ∧
    (jc_get_token_type_after_comma_of_current_nesting s2 &&&
      JC_TOKEN_TYPE_ARRAY_END) = 0 := by
  unfold jc_get_token_type_after_comma_of_current_nesting
  split
  · split <;> exact ⟨by decide, by decide⟩
  · exact ⟨by decide, by decide⟩

theorem jc_parse_string_inv {s : jc_state} {w : Bool} {r : jc_result}
    {st' : jc_state} {t : Option jc_token} (hs : jcInv s)
    (h : jc_parse_string_or_field_name s w = (r, st', t)) :
    jcInv st' ∧ r ≠ JC_RESULT_ERR_CORRUPTED_STATE := by
  unfold jc_parse_string_or_field_name at h
  split at h
  · rw [Prod.mk.injEq, Prod.mk.injEq] at h
    obtain ⟨rfl, rfl, rfl⟩ := h
    exact ⟨hs, by decide⟩
  · rw [Prod.mk.injEq, Prod.mk.injEq] at h
    obtain ⟨rfl, rfl, rfl⟩ := h
    refine ⟨?_, by decide⟩
    split
    · exact ⟨hs.1, hs.2.1, fun hx => absurd (show JC_TOKEN_TYPE_COLON &&&
        JC_TOKEN_TYPE_OBJECT_END = 0 by decide) hx,
        fun hx => absurd (show JC_TOKEN_TYPE_COLON &&&
          JC_TOKEN_TYPE_ARRAY_END = 0 by decide) hx⟩
    · exact ⟨hs.1, hs.2.1, (jc_end_token_imp _).1, (jc_end_token_imp _).2⟩

theorem jc_parse_number_inv {s : jc_state} {w : Bool} {r : jc_result}
    {st' : jc_state} {t : Option jc_token} (hs : jcInv s)
    (h : jc_parse_number s w = some (r, st', t)) :
    jcInv st' ∧ r ≠ JC_RESULT_ERR_CORRUPTED_STATE := by
  unfold jc_parse_number at h
  split at h
  · exact absurd h (by simp)
  · have hx := Option.some.inj h
    rw [Prod.mk.injEq, Prod.mk.injEq] at hx
    obtain ⟨rfl, rfl, rfl⟩ := hx
    exact ⟨⟨hs.1, hs.2.1, (jc_end_token_imp _).1, (jc_end_token_imp _).2⟩,
      by decide⟩

theorem jc_parse_literal_inv {s : jc_state} {w : Bool} {ty : Nat}
    {lit : List Char} {r : jc_result} {st' : jc_state} {t : Option jc_token}
    (hs : jcInv s) (h : jc_parse_literal s w ty lit = (r, st', t)) :
    jcInv st' ∧ r ≠ JC_RESULT_ERR_CORRUPTED_STATE := by
  unfold jc_parse_literal at h
  split at h
  · rw [Prod.mk.injEq, Prod.mk.injEq] at h
    obtain ⟨rfl, rfl, rfl⟩ := h
    exact ⟨hs, by decide⟩
  · rw [Prod.mk.injEq, Prod.mk.injEq] at h
    obtain ⟨rfl, rfl, rfl⟩ := h
    exact ⟨⟨hs.1, hs.2.1, (jc_end_token_imp _).1, (jc_end_token_imp _).2⟩,
      by decide⟩

/-- One defined step preserves the invariant and, from an invariant
state, never reports `CORRUPTED_STATE` (the only in-call source of that
code is popping an empty stack, which the invariant rules out). -/
theorem jcInv_step {st : jc_state} {w : Bool} {r : jc_result}
    {st' : jc_state} {t : Option jc_token} (hInv : jcInv st)
    (h : jc_next_token st w = some (r, st', t)) :
    jcInv st' ∧ r ≠ JC_RESULT_ERR_CORRUPTED_STATE := by
  simp only [jc_next_token] at h
  generalize hsgen : jc_skip_whitespace st = s at h
  have hInv_s : jcInv s := by
    rw [← hsgen]
    exact hInv
  generalize hcgen : jcChar s.source s.source_pos = c at h
  have hi1 : (-1 : Int) ≤ s.nesting_level := hInv_s.1
  have hi2 : s.nesting_level < (8 : Int) := hInv_s.2.1
  by_cases h1 : jc_is_expected s JC_NO_TOKENS_EXPECTED = true
  · rw [if_pos h1] at h
    have hx := Option.some.inj h
    rw [Prod.mk.injEq, Prod.mk.injEq] at hx
    obtain ⟨rfl, rfl, rfl⟩ := hx
    exact ⟨hInv_s, by split <;> decide⟩
  rw [if_neg h1] at h
  by_cases h2 : (c == JC_CHAR_NULL) = true
  · rw [if_pos h2] at h
    have hx := Option.some.inj h
    rw [Prod.mk.injEq, Prod.mk.injEq] at hx
    obtain ⟨rfl, rfl, rfl⟩ := hx
    exact ⟨hInv_s, by decide⟩
  rw [if_neg h2] at h
  by_cases h3 : (jc_is_expected s JC_TOKEN_TYPE_OBJECT_START &&
      (c == JC_CHAR_OBJECT_START)) = true
  · rw [if_pos h3] at h
    have hx := Option.some.inj h
    rw [Prod.mk.injEq, Prod.mk.injEq] at hx
    obtain ⟨rfl, rfl, rfl⟩ := hx
    unfold jc_nest
    split
    · rename_i hg
      have h8 : s.nesting_level ≥ (8 : Int) - 1 := hg
      exact ⟨⟨hInv_s.1, hInv_s.2.1,
        fun _ => show (0 : Int) ≤ s.nesting_level by omega,
        fun _ => show (0 : Int) ≤ s.nesting_level by omega⟩,
        show JC_RESULT_ERR_MAX_NESTING_REACHED ≠
          JC_RESULT_ERR_CORRUPTED_STATE by decide⟩
    · rename_i hg
      have h8 : ¬ s.nesting_level ≥ (8 : Int) - 1 := hg
      exact ⟨⟨show (-1 : Int) ≤ s.nesting_level + 1 by omega,
        show s.nesting_level + 1 < (8 : Int) by omega,
        fun _ => show (0 : Int) ≤ s.nesting_level + 1 by omega,
        fun _ => show (0 : Int) ≤ s.nesting_level + 1 by omega⟩,
        show JC_RESULT_OK ≠ JC_RESULT_ERR_CORRUPTED_STATE by decide⟩
  rw [if_neg h3] at h
  by_cases h4 : (jc_is_expected s JC_TOKEN_TYPE_ARRAY_START &&
      (c == JC_CHAR_ARRAY_START)) = true
  · rw [if_pos h4] at h
    have hx := Option.some.inj h
    rw [Prod.mk.injEq, Prod.mk.injEq] at hx
    obtain ⟨rfl, rfl, rfl⟩ := hx
    unfold jc_nest
    split
    · rename_i hg
      have h8 : s.nesting_level ≥ (8 : Int) - 1 := hg
      exact ⟨⟨hInv_s.1, hInv_s.2.1,
        fun _ => show (0 : Int) ≤ s.nesting_level by omega,
        fun _ => show (0 : Int) ≤ s.nesting_level by omega⟩,
        show JC_RESULT_ERR_MAX_NESTING_REACHED ≠
          JC_RESULT_ERR_CORRUPTED_STATE by decide⟩
    · rename_i hg
      have h8 : ¬ s.nesting_level ≥ (8 : Int) - 1 := hg
      exact ⟨⟨show (-1 : Int) ≤ s.nesting_level + 1 by omega,
        show s.nesting_level + 1 < (8 : Int) by omega,
        fun _ => show (0 : Int) ≤ s.nesting_level + 1 by omega,
        fun _ => show (0 : Int) ≤ s.nesting_level + 1 by omega⟩,
        show JC_RESULT_OK ≠ JC_RESULT_ERR_CORRUPTED_STATE by decide⟩
  rw [if_neg h4] at h
  by_cases h5 : (jc_is_expected s JC_TOKEN_TYPE_OBJECT_END &&
      (c == JC_CHAR_OBJECT_END)) = true
  · rw [if_pos h5] at h
    have h5c := h5
    rw [Bool.and_eq_true] at h5c
    have hOE : (s.expected_token_types &&& JC_TOKEN_TYPE_OBJECT_END) ≠ 0 :=
      jc_is_expected_mask (by decide) h5c.1
    have h0le : (0 : Int) ≤ s.nesting_level := hInv_s.2.2.1 hOE
    have hun : jc_unnest (jc_advance_source_pos s 1) =
        (JC_RESULT_OK, { jc_advance_source_pos s 1 with
          nesting_level :=
            (jc_advance_source_pos s 1).nesting_level - 1 }) := by
      unfold jc_unnest
      rw [if_neg ?hng]
      case hng =>
        intro hc
        have hc2 : s.nesting_level ≤ (-1 : Int) := hc
        omega
    rw [hun] at h
    rw [if_neg (by simp)] at h
    have hx := Option.some.inj h
    rw [Prod.mk.injEq, Prod.mk.injEq] at hx
    obtain ⟨rfl, rfl, rfl⟩ := hx
    exact ⟨⟨show (-1 : Int) ≤ s.nesting_level - 1 by omega,
      show s.nesting_level - 1 < (8 : Int) by omega,
      (jc_end_token_imp _).1, (jc_end_token_imp _).2⟩,
      show JC_RESULT_OK ≠ JC_RESULT_ERR_CORRUPTED_STATE by decide⟩
  rw [if_neg h5] at h
  by_cases h6 : (jc_is_expected s JC_TOKEN_TYPE_ARRAY_END &&
      (c == JC_CHAR_ARRAY_END)) = true
  · rw [if_pos h6] at h
    have h6c := h6
    rw [Bool.and_eq_true] at h6c
    have hAE : (s.expected_token_types &&& JC_TOKEN_TYPE_ARRAY_END) ≠ 0 :=
      jc_is_expected_mask (by decide) h6c.1
    have h0le : (0 : Int) ≤ s.nesting_level := hInv_s.2.2.2 hAE
    have hun : jc_unnest (jc_advance_source_pos s 1) =
        (JC_RESULT_OK, { jc_advance_source_pos s 1 with
          nesting_level :=
            (jc_advance_source_pos s 1).nesting_level - 1 }) := by
      unfold jc_unnest
      rw [if_neg ?hng]
      case hng =>
        intro hc
        have hc2 : s.nesting_level ≤ (-1 : Int) := hc
        omega
    rw [hun] at h
    rw [if_neg (by simp)] at h
    have hx := Option.some.inj h
    rw [Prod.mk.injEq, Prod.mk.injEq] at hx
    obtain ⟨rfl, rfl, rfl⟩ := hx
    exact ⟨⟨show (-1 : Int) ≤ s.nesting_level - 1 by omega,
      show s.nesting_level - 1 < (8 : Int) by omega,
      (jc_end_token_imp _).1, (jc_end_token_imp _).2⟩,
      show JC_RESULT_OK ≠ JC_RESULT_ERR_CORRUPTED_STATE by decide⟩
  rw [if_neg h6] at h
  by_cases h7 : (jc_is_expected s JC_TOKEN_TYPE_COLON &&
      (c == JC_CHAR_COLON)) = true
  · rw [if_pos h7] at h
    have hx := Option.some.inj h
    rw [Prod.mk.injEq, Prod.mk.injEq] at hx
    obtain ⟨rfl, rfl, rfl⟩ := hx
    exact ⟨⟨hInv_s.1, hInv_s.2.1,
      fun hx2 => absurd (show JC_TOKEN_TYPE_VALUE &&&
        JC_TOKEN_TYPE_OBJECT_END = 0 by decide) hx2,
      fun hx2 => absurd (show JC_TOKEN_TYPE_VALUE &&&
        JC_TOKEN_TYPE_ARRAY_END = 0 by decide) hx2⟩,
      show JC_RESULT_OK ≠ JC_RESULT_ERR_CORRUPTED_STATE by decide⟩
  rw [if_neg h7] at h
  by_cases h8 : (jc_is_expected s JC_TOKEN_TYPE_COMMA &&
      (c == JC_CHAR_COMMA)) = true
  · rw [if_pos h8] at h
    have hx := Option.some.inj h
    rw [Prod.mk.injEq, Prod.mk.injEq] at hx
    obtain ⟨rfl, rfl, rfl⟩ := hx
    exact ⟨⟨hInv_s.1, hInv_s.2.1,
      fun hx2 => absurd (jc_after_comma_no_ends _).1 hx2,
      fun hx2 => absurd (jc_after_comma_no_ends _).2 hx2⟩,
      show JC_RESULT_OK ≠ JC_RESULT_ERR_CORRUPTED_STATE by decide⟩
  rw [if_neg h8] at h
  by_cases h9 : (jc_is_expected s
      (JC_TOKEN_TYPE_FIELD_NAME ||| JC_TOKEN_TYPE_STRING) &&
      (c == JC_CHAR_DQUOTE)) = true
  · rw [if_pos h9] at h
    exact jc_parse_string_inv hInv_s (Option.some.inj h)
  rw [if_neg h9] at h
  by_cases h10 : (jc_is_expected s JC_TOKEN_TYPE_NUMBER &&
      jcStrchr JC_VALID_CHARS_IN_NUMBER c) = true
  · rw [if_pos h10] at h
    exact jc_parse_number_inv hInv_s h
  rw [if_neg h10] at h
  by_cases h11 : (jc_is_expected s JC_TOKEN_TYPE_TRUE &&
      jcStrchr JC_LIT_TRUE c) = true
  · rw [if_pos h11] at h
    exact jc_parse_literal_inv hInv_s (Option.some.inj h)
  rw [if_neg h11] at h
  by_cases h12 : (jc_is_expected s JC_TOKEN_TYPE_FALSE &&
      jcStrchr JC_LIT_FALSE c) = true
  · rw [if_pos h12] at h
    exact jc_parse_literal_inv hInv_s (Option.some.inj h)
  rw [if_neg h12] at h
  by_cases h13 : (jc_is_expected s JC_TOKEN_TYPE_NULL &&
      jcStrchr JC_LIT_NULL c) = true
  · rw [if_pos h13] at h
    exact jc_parse_literal_inv hInv_s (Option.some.inj h)
  rw [if_neg h13] at h
  have hx := Option.some.inj h
  rw [Prod.mk.injEq, Prod.mk.injEq] at hx
  obtain ⟨rfl, rfl, rfl⟩ := hx
  exact ⟨hInv_s, by decide⟩

theorem jcInv_reachable {st : jc_state} (h : jcReachable st) : jcInv st := by
  obtain ⟨src, stack0, hr⟩ := h
  induction hr with
  | refl => exact jcInv_initial src stack0
  | tail hab hbc ih =>
      obtain ⟨w, r, t, hstep⟩ := hbc
      exact (jcInv_step ih hstep).1

/-- C10: every state reachable from a successful init keeps its nesting
depth in `[-1, max-1]`; whenever an object-end or array-end token is in
the expected set (the enabling condition of the end productions) the
nesting stack is non-empty; and consequently no defined call from a
reachable state ever returns the `CORRUPTED_STATE` code that popping an
empty stack would produce. -/
theorem claim_C10 (st : jc_state) (h : jcReachable st) :
    (JC_NO_NESTING_LEVEL ≤ st.nesting_level ∧
      st.nesting_level < JC_MAX_NESTING_LEVEL) ∧
    ((st.expected_token_types &&& JC_TOKEN_TYPE_OBJECT_END) ≠ 0 →
      0 ≤ st.nesting_level) ∧
    ((st.expected_token_types &&& JC_TOKEN_TYPE_ARRAY_END) ≠ 0 →
      0 ≤ st.nesting_level) ∧
    (∀ w r st' t, jc_next_token st w = some (r, st', t) →
      r ≠ JC_RESULT_ERR_CORRUPTED_STATE) := by
  have hInv := jcInv_reachable h
  exact ⟨⟨hInv.1, hInv.2.1⟩, hInv.2.2.1, hInv.2.2.2,
    fun w r st' t hstep => (jcInv_step hInv hstep).2⟩

/-- C10 witness: the freshly initialized state (on the empty source) is
reachable, its depth is in bounds, and no call from it can return
`CORRUPTED_STATE`. -/
theorem claim_C10_witness :
    (JC_NO_NESTING_LEVEL ≤
        (jc_initial_state [] jcAnyStack).nesting_level ∧
      (jc_initial_state [] jcAnyStack).nesting_level <
        JC_MAX_NESTING_LEVEL) ∧
    (((jc_initial_state [] jcAnyStack).expected_token_types &&&
        JC_TOKEN_TYPE_OBJECT_END) ≠ 0 →
      0 ≤ (jc_initial_state [] jcAnyStack).nesting_level) ∧
    (((jc_initial_state [] jcAnyStack).expected_token_types &&&
        JC_TOKEN_TYPE_ARRAY_END) ≠ 0 →
      0 ≤ (jc_initial_state [] jcAnyStack).nesting_level) ∧
    (∀ w r st' t,
      jc_next_token (jc_initial_state [] jcAnyStack) w =
        some (r, st', t) → r ≠ JC_RESULT_ERR_CORRUPTED_STATE) :=
  claim_C10 (jc_initial_state [] jcAnyStack)
    ⟨[], jcAnyStack, Relation.ReflTransGen.refl⟩

/-- C3 witness: with the stack already at capacity (level 7), pushing one
more frame reports `MAX_NESTING_REACHED` and leaves the state untouched. -/
theorem claim_C3_witness :
    jc_nest jcFullState JC_NESTING_TYPE_ARRAY =
      (JC_RESULT_ERR_MAX_NESTING_REACHED, jcFullState) :=
  (claim_C3.2 jcFullState JC_NESTING_TYPE_ARRAY).2 (by decide)

/-- C4 witness: the null-handle check concretely. -/
theorem claim_C4_witness :
    jc_next_token_ptr none true =
      some (JC_RESULT_ERR_CORRUPTED_STATE, none, none) :=
  claim_C4.1 true

/-- C8 witness: init with both pointers null concretely fails. -/
theorem claim_C8_witness :
    (jc_init none none).1 = JC_RESULT_ERR_CANT_INIT :=
  (claim_C8.1 none none).mpr (Or.inl rfl)

/-- C9 witness: the slot-omitted call on a concrete state equals the
slot-supplied call with the token erased. -/
theorem claim_C9_witness :
    jc_next_token (jc_initial_state [] jcAnyStack) false =
      (jc_next_token (jc_initial_state [] jcAnyStack) true).map
        (fun x => (x.1, x.2.1, if false then x.2.2 else none)) :=
  claim_C9 (jc_initial_state [] jcAnyStack) false
